import Mathlib

/-
Verification of the alerting engine of nix-hypervisor-tui.

Shallow embedding conventions:
- Rust f64 metric values and thresholds are modelled as rationals (the values
  the program compares are exact small decimals, and the spec treats them as
  real numbers; no NaN is representable, matching the guarded arithmetic).
- chrono DateTime<Local> timestamps are modelled as Int (seconds); durations
  in seconds are Int subtraction, Duration::days(7) is 7 * 86400 seconds.
  Local::now() is modelled by an explicit clock argument threaded into every
  operation that reads the clock.
- rand::random::<u32>() in Alert::new is modelled by an explicit nonce
  argument; each alert construction site in an evaluator uses a distinct
  offset from a caller-supplied base nonce.
- std HashMap is modelled as an association list with insert-or-replace and
  remove-first semantics; HashMap key uniqueness appears as a Nodup
  hypothesis on the key list where a proof needs it, and the unspecified
  HashMap iteration order is modelled as the list order.
- Rust u32 subtraction panics on underflow; the one unguarded subtraction
  (KubernetesRule::evaluate) is modelled with a checked subtraction in the
  Option monad, so that evaluator returns Option (List Alert).
- format! numeric interpolation with a precision such as {:.1} is abstracted
  to toString of the rational; no claim depends on the digits rendered.
-/

namespace NixHypervisorTui

/-- Association-list lookup, modelling HashMap::get. -/
def AList.get {α : Type} : List (String × α) → String → Option α
  | [], _ => none
  | (k, v) :: rest, key => if k = key then some v else AList.get rest key

/-- Association-list insert-or-replace, modelling HashMap::insert. -/
def AList.insert {α : Type} : List (String × α) → String → α → List (String × α)
  | [], key, v => [(key, v)]
  | (k, w) :: rest, key, v =>
      if k = key then (key, v) :: rest else (k, w) :: AList.insert rest key v

/-- Association-list removal of the entry for a key, modelling HashMap::remove. -/
def AList.erase {α : Type} : List (String × α) → String → List (String × α)
  | [], _ => []
  | (k, v) :: rest, key => if k = key then rest else (k, v) :: AList.erase rest key

/-- Severity levels, src/alerts/types.rs; the Rust enum derives an ordering by
discriminant Info = 0, Warning = 1, Error = 2, Critical = 3. -/
inductive AlertLevel where
  | Info
  | Warning
  | Error
  | Critical
deriving DecidableEq, Repr

/-- The discriminant cast used by the sort in get-active-alerts, written
(a.level as u8) in src/alerts/manager.rs. -/
def AlertLevel.as_u8 : AlertLevel → Nat
  | .Info => 0
  | .Warning => 1
  | .Error => 2
  | .Critical => 3

/-- Alert categories, src/alerts/types.rs. -/
inductive AlertCategory where
  | System
  | Network
  | Kubernetes
  | KubeVirt
  | Service
deriving DecidableEq, Repr

/-- AlertCategory::as_str from src/alerts/types.rs. -/
def AlertCategory.as_str : AlertCategory → String
  | .System => "system"
  | .Network => "network"
  | .Kubernetes => "kubernetes"
  | .KubeVirt => "kubevirt"
  | .Service => "service"

/-- Lifecycle states, src/alerts/types.rs. -/
inductive AlertStatus where
  | Active
  | Acknowledged
  | Dismissed
  | Resolved
deriving DecidableEq, Repr

/-- AlertMetadata, src/alerts/types.rs. -/
structure AlertMetadata where
  source : String
  value : Option ℚ
  threshold : Option ℚ
  node_name : Option String
  pod_name : Option String
  vm_name : Option String
deriving DecidableEq, Repr

/-- Alert record, src/alerts/types.rs. -/
structure Alert where
  id : String
  level : AlertLevel
  category : AlertCategory
  status : AlertStatus
  title : String
  message : String
  triggered_at : Int
  acknowledged_at : Option Int
  resolved_at : Option Int
  metadata : AlertMetadata
deriving DecidableEq, Repr

/-- Alert::new from src/alerts/types.rs. The clock and the random nonce of the
identifier are explicit arguments (see the header comment). -/
def Alert.new (level : AlertLevel) (category : AlertCategory)
    (title message source : String) (now : Int) (nonce : Nat) : Alert :=
  { id := category.as_str ++ "-" ++ toString now ++ "-" ++ toString nonce
    level := level
    category := category
    status := .Active
    title := title
    message := message
    triggered_at := now
    acknowledged_at := none
    resolved_at := none
    metadata :=
      { source := source, value := none, threshold := none,
        node_name := none, pod_name := none, vm_name := none } }

/-- Alert::with_value from src/alerts/types.rs. -/
def Alert.with_value (a : Alert) (value threshold : ℚ) : Alert :=
  { a with metadata := { a.metadata with value := some value, threshold := some threshold } }

/-- Alert::acknowledge from src/alerts/types.rs: only an Active alert changes. -/
def Alert.acknowledge (a : Alert) (now : Int) : Alert :=
  if a.status = .Active then
    { a with status := .Acknowledged, acknowledged_at := some now }
  else a

/-- Alert::dismiss from src/alerts/types.rs. -/
def Alert.dismiss (a : Alert) : Alert :=
  { a with status := .Dismissed }

/-- Alert::resolve from src/alerts/types.rs. -/
def Alert.resolve (a : Alert) (now : Int) : Alert :=
  { a with status := .Resolved, resolved_at := some now }

/-- System metrics snapshot, src/types/mod.rs (float fields as rationals). -/
structure SystemMetrics where
  cpu_usage : ℚ
  memory_used_gb : ℚ
  memory_total_gb : ℚ
  disk_read_mb_s : ℚ
  disk_write_mb_s : ℚ
  disk_usage_percent : ℚ
  load_avg : ℚ
  uptime_seconds : Nat
deriving DecidableEq, Repr

/-- Cluster snapshot, src/types/mod.rs; the u32 fields are naturals, with the
one unguarded u32 subtraction modelled as checked (see checked_sub_u32). -/
structure K8sClusterInfo where
  nodes_ready : Nat
  nodes_total : Nat
  pods_running : Nat
  services : Nat
deriving DecidableEq, Repr

/-- VM snapshot, src/types/mod.rs. -/
structure KubeVirtInfo where
  vms_running : Nat
  vms_stopped : Nat
  vms_migrating : Nat
deriving DecidableEq, Repr

/-- Threshold configuration, src/alerts/rules.rs. -/
structure SystemAlert where
  cpu_warning_threshold : ℚ
  cpu_critical_threshold : ℚ
  cpu_enabled : Bool
  memory_warning_threshold : ℚ
  memory_critical_threshold : ℚ
  memory_enabled : Bool
  disk_warning_threshold : ℚ
  disk_critical_threshold : ℚ
  disk_enabled : Bool
  load_warning_threshold : ℚ
  load_critical_threshold : ℚ
  load_enabled : Bool
deriving DecidableEq, Repr

/-- Default::default() for SystemAlert, src/alerts/rules.rs. -/
def SystemAlert.default : SystemAlert :=
  { cpu_warning_threshold := 80, cpu_critical_threshold := 95, cpu_enabled := true
    memory_warning_threshold := 85, memory_critical_threshold := 95, memory_enabled := true
    disk_warning_threshold := 85, disk_critical_threshold := 95, disk_enabled := true
    load_warning_threshold := 10, load_critical_threshold := 20, load_enabled := true }

/-- The memory-percentage expression that appears verbatim both in
SystemMetricsRule::evaluate (src/alerts/rules.rs) and in the memory branch of
AlertManager::auto_resolve_alerts (src/alerts/manager.rs): used over total
times 100, guarded to 0 when the total is not positive. -/
def memory_percent (m : SystemMetrics) : ℚ :=
  if m.memory_total_gb > 0 then m.memory_used_gb / m.memory_total_gb * 100 else 0

/-- SystemMetricsRule, src/alerts/rules.rs. -/
structure SystemMetricsRule where
  metrics : SystemMetrics
  config : SystemAlert

/-- The CPU block of SystemMetricsRule::evaluate. -/
def SystemMetricsRule.cpu_alerts (r : SystemMetricsRule) (now : Int) (nonce : Nat) :
    List Alert :=
  if r.config.cpu_enabled then
    if r.metrics.cpu_usage ≥ r.config.cpu_critical_threshold then
      [(Alert.new .Critical .System "Critical CPU Usage"
          ("CPU usage is critically high at " ++ toString r.metrics.cpu_usage ++ "%")
          "cpu" now nonce).with_value r.metrics.cpu_usage r.config.cpu_critical_threshold]
    else if r.metrics.cpu_usage ≥ r.config.cpu_warning_threshold then
      [(Alert.new .Warning .System "High CPU Usage"
          ("CPU usage is high at " ++ toString r.metrics.cpu_usage ++ "%")
          "cpu" now nonce).with_value r.metrics.cpu_usage r.config.cpu_warning_threshold]
    else []
  else []

/-- The memory block of SystemMetricsRule::evaluate; the percentage is the
guarded expression memory_percent. -/
def SystemMetricsRule.memory_alerts (r : SystemMetricsRule) (now : Int) (nonce : Nat) :
    List Alert :=
  if r.config.memory_enabled then
    if memory_percent r.metrics ≥ r.config.memory_critical_threshold then
      [(Alert.new .Critical .System "Critical Memory Usage"
          ("Memory usage is critically high at " ++ toString (memory_percent r.metrics)
            ++ "% (" ++ toString r.metrics.memory_used_gb ++ "/"
            ++ toString r.metrics.memory_total_gb ++ " GB)")
          "memory" now nonce).with_value (memory_percent r.metrics)
            r.config.memory_critical_threshold]
    else if memory_percent r.metrics ≥ r.config.memory_warning_threshold then
      [(Alert.new .Warning .System "High Memory Usage"
          ("Memory usage is high at " ++ toString (memory_percent r.metrics)
            ++ "% (" ++ toString r.metrics.memory_used_gb ++ "/"
            ++ toString r.metrics.memory_total_gb ++ " GB)")
          "memory" now nonce).with_value (memory_percent r.metrics)
            r.config.memory_warning_threshold]
    else []
  else []

/-- The disk block of SystemMetricsRule::evaluate. -/
def SystemMetricsRule.disk_alerts (r : SystemMetricsRule) (now : Int) (nonce : Nat) :
    List Alert :=
  if r.config.disk_enabled then
    if r.metrics.disk_usage_percent ≥ r.config.disk_critical_threshold then
      [(Alert.new .Critical .System "Critical Disk Usage"
          ("Disk usage is critically high at " ++ toString r.metrics.disk_usage_percent ++ "%")
          "disk" now nonce).with_value r.metrics.disk_usage_percent
            r.config.disk_critical_threshold]
    else if r.metrics.disk_usage_percent ≥ r.config.disk_warning_threshold then
      [(Alert.new .Warning .System "High Disk Usage"
          ("Disk usage is high at " ++ toString r.metrics.disk_usage_percent ++ "%")
          "disk" now nonce).with_value r.metrics.disk_usage_percent
            r.config.disk_warning_threshold]
    else []
  else []

/-- The load block of SystemMetricsRule::evaluate. -/
def SystemMetricsRule.load_alerts (r : SystemMetricsRule) (now : Int) (nonce : Nat) :
    List Alert :=
  if r.config.load_enabled then
    if r.metrics.load_avg ≥ r.config.load_critical_threshold then
      [(Alert.new .Critical .System "Critical Load Average"
          ("Load average is critically high at " ++ toString r.metrics.load_avg)
          "load" now nonce).with_value r.metrics.load_avg r.config.load_critical_threshold]
    else if r.metrics.load_avg ≥ r.config.load_warning_threshold then
      [(Alert.new .Warning .System "High Load Average"
          ("Load average is high at " ++ toString r.metrics.load_avg)
          "load" now nonce).with_value r.metrics.load_avg r.config.load_warning_threshold]
    else []
  else []

/-- SystemMetricsRule::evaluate, src/alerts/rules.rs: the four blocks push in
order cpu, memory, disk, load; distinct nonce offsets model the independent
random identifier draws. -/
def SystemMetricsRule.evaluate (r : SystemMetricsRule) (now : Int) (nonce : Nat) :
    List Alert :=
  r.cpu_alerts now nonce ++ r.memory_alerts now (nonce + 1)
    ++ r.disk_alerts now (nonce + 2) ++ r.load_alerts now (nonce + 3)

/-- Rust u32 subtraction, which panics on underflow (none models the panic). -/
def checked_sub_u32 (a b : Nat) : Option Nat :=
  if b ≤ a then some (a - b) else none

/-- KubernetesRule, src/alerts/rules.rs. -/
structure KubernetesRule where
  cluster_info : K8sClusterInfo
  enabled : Bool

/-- KubernetesRule::evaluate, src/alerts/rules.rs. The unguarded u32
subtraction nodes_total - nodes_ready is the checked subtraction, so the
result is none exactly when that subtraction would underflow (panic). -/
def KubernetesRule.evaluate (r : KubernetesRule) (now : Int) (nonce : Nat) :
    Option (List Alert) :=
  if !r.enabled then some []
  else do
    let node_alerts ←
      if r.cluster_info.nodes_total > 0 then do
        let unhealthy_nodes ← checked_sub_u32 r.cluster_info.nodes_total r.cluster_info.nodes_ready
        if unhealthy_nodes > 0 then
          let level :=
            if unhealthy_nodes ≥ r.cluster_info.nodes_total / 2 then
              AlertLevel.Critical
            else
              AlertLevel.Warning
          pure [Alert.new level .Kubernetes
            (toString unhealthy_nodes ++ " Nodes Not Ready")
            (toString unhealthy_nodes ++ " of " ++ toString r.cluster_info.nodes_total
              ++ " cluster nodes are not in Ready state")
            "k8s-nodes" now nonce]
        else pure []
      else pure []
    let cluster_alerts :=
      if r.cluster_info.nodes_total = 0 ∧ r.cluster_info.pods_running = 0 then
        [Alert.new .Critical .Kubernetes "Cluster Unreachable"
          "Unable to connect to Kubernetes cluster or cluster has no nodes"
          "k8s-cluster" now (nonce + 1)]
      else []
    pure (node_alerts ++ cluster_alerts)

/-- KubeVirtRule, src/alerts/rules.rs. -/
structure KubeVirtRule where
  kubevirt_info : KubeVirtInfo
  enabled : Bool

/-- KubeVirtRule::evaluate, src/alerts/rules.rs. -/
def KubeVirtRule.evaluate (r : KubeVirtRule) (now : Int) (nonce : Nat) : List Alert :=
  if !r.enabled then []
  else if r.kubevirt_info.vms_migrating > 0 then
    [Alert.new .Info .KubeVirt
      (toString r.kubevirt_info.vms_migrating ++ " VMs Migrating")
      (toString r.kubevirt_info.vms_migrating ++ " virtual machines are currently migrating")
      "kubevirt-migration" now nonce]
  else []

/-- AlertManager state, src/alerts/manager.rs; both HashMaps are association
lists keyed by String. -/
structure AlertManager where
  active_alerts : List (String × Alert)
  history : List Alert
  system_alerts_config : SystemAlert
  kubernetes_enabled : Bool
  kubevirt_enabled : Bool
  last_triggered : List (String × Int)
  max_history_size : Nat
  dedup_window_seconds : Int

/-- AlertManager::new, src/alerts/manager.rs. -/
def AlertManager.new : AlertManager :=
  { active_alerts := []
    history := []
    system_alerts_config := SystemAlert.default
    kubernetes_enabled := true
    kubevirt_enabled := true
    last_triggered := []
    max_history_size := 1000
    dedup_window_seconds := 300 }

/-- AlertManager::add_alert_with_dedup, src/alerts/manager.rs. The dedup key
is category.as_str() joined to the metadata source; a candidate within the
dedup window of the stored timestamp is dropped with no state change. -/
def AlertManager.add_alert_with_dedup (m : AlertManager) (now : Int) (alert : Alert) :
    AlertManager :=
  let dedup_key := alert.category.as_str ++ "-" ++ alert.metadata.source
  let skip : Bool :=
    match AList.get m.last_triggered dedup_key with
    | some last_time => decide (now - last_time < m.dedup_window_seconds)
    | none => false
  if skip then m
  else
    { m with
      last_triggered := AList.insert m.last_triggered dedup_key now
      active_alerts := AList.insert m.active_alerts alert.id alert }

/-- The per-source resolve predicate of AlertManager::auto_resolve_alerts,
src/alerts/manager.rs lines 131-174: cpu, memory, disk and load compare the
current reading against the stored threshold minus a hysteresis margin and are
false with no stored threshold; the two Kubernetes sources look only at the
cluster snapshot; every other source is false. -/
def should_resolve (alert : Alert) (sm : SystemMetrics) (k8s : K8sClusterInfo) : Bool :=
  match alert.metadata.source with
  | "cpu" =>
    match alert.metadata.threshold with
    | some threshold => decide (sm.cpu_usage < threshold - 5)
    | none => false
  | "memory" =>
    match alert.metadata.threshold with
    | some threshold => decide (memory_percent sm < threshold - 5)
    | none => false
  | "disk" =>
    match alert.metadata.threshold with
    | some threshold => decide (sm.disk_usage_percent < threshold - 5)
    | none => false
  | "load" =>
    match alert.metadata.threshold with
    | some threshold => decide (sm.load_avg < threshold - 2)
    | none => false
  | "k8s-nodes" => decide (k8s.nodes_ready = k8s.nodes_total ∧ k8s.nodes_total > 0)
  | "k8s-cluster" => decide (k8s.nodes_total > 0 ∨ k8s.pods_running > 0)
  | _ => false

/-- One iteration of the resolve loop of AlertManager::auto_resolve_alerts:
remove the alert for the collected identifier, mark it Resolved at the clock
reading, push it onto history. -/
def resolve_step (now : Int) (m : AlertManager) (id : String) : AlertManager :=
  match AList.get m.active_alerts id with
  | some alert =>
    { m with
      active_alerts := AList.erase m.active_alerts id
      history := m.history ++ [alert.resolve now] }
  | none => m

/-- AlertManager::auto_resolve_alerts, src/alerts/manager.rs: collect the
identifiers whose alert satisfies the resolve predicate, then run the resolve
loop over them. -/
def AlertManager.auto_resolve_alerts (m : AlertManager) (now : Int)
    (sm : SystemMetrics) (k8s : K8sClusterInfo) (_kv : KubeVirtInfo) : AlertManager :=
  let to_resolve :=
    (m.active_alerts.filter (fun p => should_resolve p.2 sm k8s)).map (fun p => p.1)
  to_resolve.foldl (resolve_step now) m

/-- AlertManager::cleanup_history, src/alerts/manager.rs: first drain the
oldest overflow beyond the cap from the front, then retain only entries whose
trigger timestamp is newer than the seven-day cutoff. -/
def AlertManager.cleanup_history (m : AlertManager) (now : Int) : AlertManager :=
  let h :=
    if m.history.length > m.max_history_size then
      m.history.drop (m.history.length - m.max_history_size)
    else m.history
  let cutoff := now - 7 * 86400
  { m with history := h.filter (fun a => decide (a.triggered_at > cutoff)) }

/-- AlertManager::evaluate, src/alerts/manager.rs: run the evaluators in the
order system, kubernetes, kubevirt, feed every candidate to the dedup gate,
auto-resolve, then clean history. The Option propagates the possible panic of
the kubernetes evaluator. -/
def AlertManager.evaluate (m : AlertManager) (now : Int) (nonce : Nat)
    (sm : SystemMetrics) (k8s : K8sClusterInfo) (kv : KubeVirtInfo) :
    Option AlertManager := do
  let system_rule : SystemMetricsRule := { metrics := sm, config := m.system_alerts_config }
  let k8s_alerts ←
    if m.kubernetes_enabled then
      KubernetesRule.evaluate { cluster_info := k8s, enabled := true } now (nonce + 4)
    else pure []
  let kv_alerts :=
    if m.kubevirt_enabled then
      KubeVirtRule.evaluate { kubevirt_info := kv, enabled := true } now (nonce + 6)
    else []
  let new_alerts := system_rule.evaluate now nonce ++ k8s_alerts ++ kv_alerts
  let m1 := new_alerts.foldl (fun acc a => acc.add_alert_with_dedup now a) m
  let m2 := m1.auto_resolve_alerts now sm k8s kv
  pure (m2.cleanup_history now)

/-- The comparator of AlertManager::get_active_alerts as an order relation:
a comes no later than b when the level of a is strictly higher, or the levels
agree and a was triggered no earlier. -/
def alert_order (a b : Alert) : Prop :=
  b.level.as_u8 < a.level.as_u8 ∨ (a.level.as_u8 = b.level.as_u8 ∧ b.triggered_at ≤ a.triggered_at)

instance : DecidableRel alert_order := fun a b => by
  unfold alert_order
  infer_instance

instance : IsTotal Alert alert_order := by
  constructor
  intro a b
  unfold alert_order
  omega

instance : IsTrans Alert alert_order := by
  constructor
  intro a b c hab hbc
  unfold alert_order at *
  omega

/-- AlertManager::get_active_alerts, src/alerts/manager.rs: the values of the
active map sorted by the level-then-recency comparator; the stable sort_by of
Rust Vec is modelled by a stable insertion sort. -/
def AlertManager.get_active_alerts (m : AlertManager) : List Alert :=
  List.insertionSort alert_order (m.active_alerts.map (fun p => p.2))

/-- AlertManager::get_alerts_by_level, src/alerts/manager.rs. -/
def AlertManager.get_alerts_by_level (m : AlertManager) (level : AlertLevel) : List Alert :=
  (m.active_alerts.map (fun p => p.2)).filter (fun a => a.level = level)

/-- AlertManager::active_count, src/alerts/manager.rs. -/
def AlertManager.active_count (m : AlertManager) : Nat :=
  m.active_alerts.length

/-- AlertManager::acknowledge_alert, src/alerts/manager.rs: mutate in place
through get_mut when present, otherwise do nothing. -/
def AlertManager.acknowledge_alert (m : AlertManager) (now : Int) (id : String) :
    AlertManager :=
  match AList.get m.active_alerts id with
  | some alert =>
    { m with active_alerts := AList.insert m.active_alerts id (alert.acknowledge now) }
  | none => m

/-- AlertManager::dismiss_alert, src/alerts/manager.rs: remove when present,
mark Dismissed, push onto history; otherwise do nothing. -/
def AlertManager.dismiss_alert (m : AlertManager) (id : String) : AlertManager :=
  match AList.get m.active_alerts id with
  | some alert =>
    { m with
      active_alerts := AList.erase m.active_alerts id
      history := m.history ++ [alert.dismiss] }
  | none => m

/-- AlertManager::dismiss_all, src/alerts/manager.rs. -/
def AlertManager.dismiss_all (m : AlertManager) : AlertManager :=
  { m with
    active_alerts := []
    history := m.history ++ m.active_alerts.map (fun p => p.2.dismiss) }

/-- AlertManager::get_alert, src/alerts/manager.rs. -/
def AlertManager.get_alert (m : AlertManager) (id : String) : Option Alert :=
  AList.get m.active_alerts id

/-- AlertManager::has_critical_alerts, src/alerts/manager.rs. -/
def AlertManager.has_critical_alerts (m : AlertManager) : Bool :=
  m.active_alerts.any (fun p => p.2.level = .Critical ∧ p.2.status = .Active)

/-- AlertManager::has_active_alerts, src/alerts/manager.rs. -/
def AlertManager.has_active_alerts (m : AlertManager) : Bool :=
  !m.active_alerts.isEmpty

/-- The alerts of a candidate list carrying a given source tag; used to state
the per-dimension emission properties. -/
def with_source (l : List Alert) (s : String) : List Alert :=
  l.filter (fun a => a.metadata.source == s)

/-- A benign metrics snapshot: nothing near any default threshold. -/
def sm_benign : SystemMetrics :=
  { cpu_usage := 0, memory_used_gb := 0, memory_total_gb := 1,
    disk_read_mb_s := 0, disk_write_mb_s := 0, disk_usage_percent := 0,
    load_avg := 0, uptime_seconds := 0 }

/-- A snapshot with persistently high cpu usage of 90 percent. -/
def sm_high_cpu : SystemMetrics :=
  { sm_benign with cpu_usage := 90 }

/-- A snapshot with cpu usage of 76 percent. -/
def sm_cpu76 : SystemMetrics :=
  { sm_benign with cpu_usage := 76 }

/-- A snapshot with cpu usage of 74 percent. -/
def sm_cpu74 : SystemMetrics :=
  { sm_benign with cpu_usage := 74 }

/-- A snapshot with zero total memory. -/
def sm_zero_mem : SystemMetrics :=
  { sm_benign with memory_total_gb := 0, memory_used_gb := 0 }

/-- A healthy one-node cluster snapshot. -/
def k8s_healthy : K8sClusterInfo :=
  { nodes_ready := 1, nodes_total := 1, pods_running := 1, services := 0 }

/-- A VM snapshot with nothing migrating. -/
def kv_zero : KubeVirtInfo :=
  { vms_running := 0, vms_stopped := 0, vms_migrating := 0 }

/-- An active kubernetes node alert as the kubernetes evaluator creates it:
its threshold metadata is absent. -/
def alert_k8s_nodes : Alert :=
  Alert.new .Warning .Kubernetes "1 Nodes Not Ready"
    "1 of 2 cluster nodes are not in Ready state" "k8s-nodes" 0 0

/-- A manager holding only the kubernetes node alert. -/
def mgr_c1 : AlertManager :=
  { AlertManager.new with active_alerts := [(alert_k8s_nodes.id, alert_k8s_nodes)] }

/-- An active Warning cpu alert triggered at the default warning threshold 80,
as the system metrics evaluator creates it. -/
def alert_cpu80 : Alert :=
  (Alert.new .Warning .System "High CPU Usage" "CPU usage is high at 90%"
    "cpu" 0 0).with_value 90 80

/-- A manager holding only the cpu alert. -/
def mgr_c4 : AlertManager :=
  { AlertManager.new with active_alerts := [(alert_cpu80.id, alert_cpu80)] }

/-- A Critical, a Warning and an Info alert for the sort-order scenario. -/
def alert_crit : Alert :=
  Alert.new .Critical .System "Critical CPU Usage" "c" "cpu" 10 1

/-- The Warning alert of the sort-order scenario. -/
def alert_warn : Alert :=
  Alert.new .Warning .System "High Disk Usage" "w" "disk" 11 2

/-- The Info alert of the sort-order scenario. -/
def alert_info : Alert :=
  Alert.new .Info .KubeVirt "1 VMs Migrating" "i" "kubevirt-migration" 12 3

/-- A manager holding the three alerts in scrambled map order. -/
def mgr_c8 : AlertManager :=
  { AlertManager.new with
    active_alerts :=
      [(alert_info.id, alert_info), (alert_crit.id, alert_crit),
        (alert_warn.id, alert_warn)] }

/-- An active alert for the acknowledge and dismiss scenario. -/
def alert_c9 : Alert :=
  Alert.new .Warning .System "High Load Average" "l" "load" 3 7

/-- A manager holding only that alert. -/
def mgr_c9 : AlertManager :=
  { AlertManager.new with active_alerts := [(alert_c9.id, alert_c9)] }

/-- One recent terminal history entry per index; entry i was triggered at
second i, so entry 0 is the oldest. -/
def c7_entry (i : Nat) : Alert :=
  { Alert.new .Info .System "entry" "entry" "src" (Int.ofNat i) i with status := .Resolved }

/-- A manager whose history holds 1001 recent terminal alerts, oldest first. -/
def mgr_c7 : AlertManager :=
  { AlertManager.new with history := (List.range 1001).map c7_entry }

/-- The cpu Warning candidate the system evaluator emits at clock 0 for the
high-cpu snapshot. -/
def cpu_alert_cycle1 : Alert :=
  (Alert.new .Warning .System "High CPU Usage"
    ("CPU usage is high at " ++ toString (90 : ℚ) ++ "%") "cpu" 0 0).with_value 90 80

/-- The manager state after one evaluation cycle at clock 0 on the high-cpu
snapshot, starting from a fresh manager. -/
def mgr_cycle1 : AlertManager :=
  { active_alerts := [(cpu_alert_cycle1.id, cpu_alert_cycle1)]
    history := []
    system_alerts_config := SystemAlert.default
    kubernetes_enabled := true
    kubevirt_enabled := true
    last_triggered := [("system-cpu", 0)]
    max_history_size := 1000
    dedup_window_seconds := 300 }

/-- The node alert the kubernetes evaluator emits for two of three nodes
ready: one node unhealthy, and 1 is not below 3 / 2 = 1, so it is Critical. -/
def c2_alert_23 : Alert :=
  Alert.new .Critical .Kubernetes "1 Nodes Not Ready"
    "1 of 3 cluster nodes are not in Ready state" "k8s-nodes" 0 0

/-- Lookup of a present key succeeds when the key list has no duplicates. -/
theorem AList.get_mem {α : Type} {l : List (String × α)} {k : String} {a : α}
    (hnd : (l.map Prod.fst).Nodup) (hmem : (k, a) ∈ l) : AList.get l k = some a := by
  induction l with
  | nil => cases hmem
  | cons p rest ih =>
    obtain ⟨k0, v0⟩ := p
    simp only [List.map_cons, List.nodup_cons] at hnd
    rcases List.mem_cons.mp hmem with h | h
    · cases h
      simp [AList.get]
    · have hne : k0 ≠ k := by
        intro he
        exact hnd.1 (he ▸ List.mem_map.mpr ⟨(k, a), h, rfl⟩)
      simp [AList.get, hne, ih hnd.2 h]

/-- A successful lookup is membership. -/
theorem AList.mem_of_get {α : Type} {l : List (String × α)} {k : String} {a : α}
    (h : AList.get l k = some a) : (k, a) ∈ l := by
  induction l with
  | nil => simp [AList.get] at h
  | cons p rest ih =>
    obtain ⟨k0, v0⟩ := p
    by_cases he : k0 = k
    · subst he
      simp [AList.get] at h
      simp [h]
    · simp [AList.get, he] at h
      exact List.mem_cons_of_mem _ (ih h)

/-- A present key has some lookup result. -/
theorem AList.get_isSome {α : Type} {l : List (String × α)} {k : String}
    (h : k ∈ l.map Prod.fst) : ∃ a, AList.get l k = some a := by
  induction l with
  | nil => simp at h
  | cons p rest ih =>
    obtain ⟨k0, v0⟩ := p
    by_cases he : k0 = k
    · exact ⟨v0, by simp [AList.get, he]⟩
    · simp only [List.map_cons, List.mem_cons] at h
      rcases h with h | h
      · exact absurd h.symm he
      · obtain ⟨a, ha⟩ := ih h
        exact ⟨a, by simp [AList.get, he, ha]⟩

/-- Lookup after insert at the inserted key. -/
theorem AList.get_insert_self {α : Type} (l : List (String × α)) (k : String) (v : α) :
    AList.get (AList.insert l k v) k = some v := by
  induction l with
  | nil => simp [AList.insert, AList.get]
  | cons p rest ih =>
    obtain ⟨k0, v0⟩ := p
    by_cases he : k0 = k
    · simp [AList.insert, he, AList.get]
    · simp [AList.insert, he, AList.get, ih]

/-- Lookup after insert at a different key. -/
theorem AList.get_insert_ne {α : Type} (l : List (String × α)) (k k' : String) (v : α)
    (h : k ≠ k') : AList.get (AList.insert l k v) k' = AList.get l k' := by
  induction l with
  | nil => simp [AList.insert, AList.get, h]
  | cons p rest ih =>
    obtain ⟨k0, v0⟩ := p
    by_cases he : k0 = k
    · subst he
      simp [AList.insert, AList.get, h]
    · simp [AList.insert, he, AList.get, ih]

/-- Re-inserting the value already stored leaves the list unchanged. -/
theorem AList.insert_of_get_eq {α : Type} {l : List (String × α)} {k : String} {v : α}
    (h : AList.get l k = some v) : AList.insert l k v = l := by
  induction l with
  | nil => simp [AList.get] at h
  | cons p rest ih =>
    obtain ⟨k0, v0⟩ := p
    by_cases he : k0 = k
    · subst he
      simp [AList.get] at h
      simp [AList.insert, h]
    · simp [AList.get, he] at h
      simp [AList.insert, he, ih h]

/-- With unique keys, erasing a key is filtering it out. -/
theorem AList.erase_eq_filter {α : Type} {l : List (String × α)} (k : String)
    (hnd : (l.map Prod.fst).Nodup) :
    AList.erase l k = l.filter (fun p => decide (p.1 ≠ k)) := by
  induction l with
  | nil => simp [AList.erase]
  | cons p rest ih =>
    obtain ⟨k0, v0⟩ := p
    simp only [List.map_cons, List.nodup_cons] at hnd
    by_cases he : k0 = k
    · subst he
      have : rest.filter (fun p => !decide (p.1 = k0)) = rest := by
        rw [List.filter_eq_self]
        intro p hp
        have hne : p.1 ≠ k0 := fun hk => hnd.1 (hk ▸ List.mem_map.mpr ⟨p, hp, rfl⟩)
        simp [hne]
      simp [AList.erase, this]
    · simp [AList.erase, he, ih hnd.2]

/-- Erasing one key does not change lookups at another. -/
theorem AList.get_erase_ne {α : Type} (l : List (String × α)) (k k' : String)
    (h : k ≠ k') : AList.get (AList.erase l k) k' = AList.get l k' := by
  induction l with
  | nil => simp [AList.erase]
  | cons p rest ih =>
    obtain ⟨k0, v0⟩ := p
    by_cases he : k0 = k
    · subst he
      simp [AList.erase, AList.get, h]
    · simp [AList.erase, he, AList.get, ih]

/-- With unique keys, two entries sharing a key are the same entry. -/
theorem AList.key_inj {α : Type} {l : List (String × α)} {p q : String × α}
    (hnd : (l.map Prod.fst).Nodup) (hp : p ∈ l) (hq : q ∈ l) (hk : p.1 = q.1) : p = q := by
  have h1 : AList.get l p.1 = some p.2 := AList.get_mem hnd hp
  have h2 : AList.get l q.1 = some q.2 := AList.get_mem hnd hq
  rw [hk, h2] at h1
  obtain ⟨p1, p2⟩ := p
  obtain ⟨q1, q2⟩ := q
  simp_all

/-- The resolve loop of auto-resolution, characterized: over identifiers that
are distinct and all present, it filters those entries out of the active set
and appends their resolved forms to history in loop order. -/
theorem fold_resolve (now : Int) :
    ∀ (ids : List String) (m : AlertManager),
      (m.active_alerts.map Prod.fst).Nodup →
      ids.Nodup →
      (∀ i ∈ ids, i ∈ m.active_alerts.map Prod.fst) →
      (ids.foldl (resolve_step now) m).active_alerts
          = m.active_alerts.filter (fun p => decide (p.1 ∉ ids))
        ∧ (ids.foldl (resolve_step now) m).history
          = m.history ++ ids.filterMap
              (fun i => (AList.get m.active_alerts i).map (fun a => a.resolve now))
  | [], m, _, _, _ => by
    constructor
    · simp
    · simp
  | i :: ids, m, hnd, hids, hmem => by
    obtain ⟨a, hget⟩ : ∃ a, AList.get m.active_alerts i = some a :=
      AList.get_isSome (hmem i (List.mem_cons_self i ids))
    simp only [List.nodup_cons] at hids
    have hstep : (i :: ids).foldl (resolve_step now) m
        = ids.foldl (resolve_step now) (resolve_step now m i) := by
      simp [List.foldl_cons]
    set m1 := resolve_step now m i with hm1
    have hm1a : m1.active_alerts = m.active_alerts.filter (fun p => decide (p.1 ≠ i)) := by
      rw [hm1]
      simp only [resolve_step, hget]
      exact AList.erase_eq_filter i hnd
    have hm1h : m1.history = m.history ++ [a.resolve now] := by
      rw [hm1]
      simp [resolve_step, hget]
    have hnd1 : (m1.active_alerts.map Prod.fst).Nodup := by
      rw [hm1a]
      exact hnd.sublist ((List.filter_sublist _).map Prod.fst)
    have hmem1 : ∀ j ∈ ids, j ∈ m1.active_alerts.map Prod.fst := by
      intro j hj
      have hjm : j ∈ m.active_alerts.map Prod.fst := hmem j (List.mem_cons_of_mem i hj)
      obtain ⟨p, hp, hpj⟩ := List.mem_map.mp hjm
      have hjne : j ≠ i := fun he => hids.1 (he ▸ hj)
      rw [hm1a]
      refine List.mem_map.mpr ⟨p, List.mem_filter.mpr ⟨hp, ?_⟩, hpj⟩
      simp [hpj, hjne]
    obtain ⟨iha, ihh⟩ := fold_resolve now ids m1 hnd1 hids.2 hmem1
    rw [hstep]
    constructor
    · rw [iha, hm1a, List.filter_filter]
      apply List.filter_congr
      intro p hp
      by_cases h1 : p.1 = i <;> by_cases h2 : p.1 ∈ ids <;> simp [h1, h2]
    · rw [ihh, hm1h]
      have hgets : ∀ j ∈ ids, AList.get m1.active_alerts j = AList.get m.active_alerts j := by
        intro j hj
        have hjne : j ≠ i := fun he => hids.1 (he ▸ hj)
        rw [hm1]
        simp only [resolve_step, hget]
        exact AList.get_erase_ne _ i j (fun he => hjne he.symm)
      rw [List.filterMap_congr (fun j hj => by rw [hgets j hj])]
      simp [List.filterMap_cons, hget]

/-- Looking every key of a sub-association back up and mapping a function is
mapping it over the stored values directly. -/
theorem filterMap_get_map (active : List (String × Alert)) (g : Alert → Alert) :
    ∀ (l : List (String × Alert)), (∀ q ∈ l, AList.get active q.1 = some q.2) →
      (l.map (fun p => p.1)).filterMap (fun i => (AList.get active i).map g)
        = l.map (fun p => g p.2)
  | [], _ => by simp
  | q :: rest, h => by
    have hq := h q (List.mem_cons_self q rest)
    simp only [List.map_cons, List.filterMap_cons, hq, Option.map_some']
    rw [filterMap_get_map active g rest (fun r hr => h r (List.mem_cons_of_mem q hr))]

/-- AlertManager auto-resolution, characterized: with unique active keys, the
pass keeps exactly the entries whose resolve predicate is false and appends
the resolved forms of the others to history in active-set order. -/
theorem auto_resolve_spec (m : AlertManager) (now : Int) (sm : SystemMetrics)
    (k8s : K8sClusterInfo) (kv : KubeVirtInfo)
    (hnd : (m.active_alerts.map Prod.fst).Nodup) :
    (m.auto_resolve_alerts now sm k8s kv).active_alerts
        = m.active_alerts.filter (fun p => !(should_resolve p.2 sm k8s))
      ∧ (m.auto_resolve_alerts now sm k8s kv).history
        = m.history ++
            (m.active_alerts.filter (fun p => should_resolve p.2 sm k8s)).map
              (fun p => p.2.resolve now) := by
  unfold AlertManager.auto_resolve_alerts
  set sel := m.active_alerts.filter (fun p => should_resolve p.2 sm k8s) with hsel
  set ids := sel.map (fun p => p.1) with hids
  have hsub : List.Sublist sel m.active_alerts := List.filter_sublist _
  have hidnd : ids.Nodup := hnd.sublist (hsub.map _)
  have hidmem : ∀ i ∈ ids, i ∈ m.active_alerts.map Prod.fst := by
    intro i hi
    obtain ⟨p, hp, hpi⟩ := List.mem_map.mp hi
    exact List.mem_map.mpr ⟨p, hsub.mem hp, hpi⟩
  obtain ⟨ha, hh⟩ := fold_resolve now ids m hnd hidnd hidmem
  constructor
  · rw [ha]
    apply List.filter_congr
    intro p hp
    have : (p.1 ∈ ids) ↔ should_resolve p.2 sm k8s := by
      constructor
      · intro hin
        obtain ⟨q, hq, hqp⟩ := List.mem_map.mp hin
        have := AList.key_inj hnd (hsub.mem hq) hp hqp
        have hqs := (List.mem_filter.mp hq).2
        rw [this] at hqs
        exact hqs
      · intro hs
        exact List.mem_map.mpr ⟨p, List.mem_filter.mpr ⟨hp, by simp [hs]⟩, rfl⟩
    by_cases hs : should_resolve p.2 sm k8s <;> simp [hs, this]
  · rw [hh]
    congr 1
    have hsel_get : ∀ q ∈ sel, AList.get m.active_alerts q.1 = some q.2 :=
      fun q hq => AList.get_mem hnd (hsub.mem hq)
    exact filterMap_get_map m.active_alerts (fun a => a.resolve now) sel hsel_get

/-- Resolve predicate on a cpu alert with a stored threshold. -/
theorem should_resolve_cpu {a : Alert} {th : ℚ} (sm : SystemMetrics) (k8s : K8sClusterInfo)
    (hs : a.metadata.source = "cpu") (ht : a.metadata.threshold = some th) :
    should_resolve a sm k8s = decide (sm.cpu_usage < th - 5) := by
  unfold should_resolve
  rw [hs, ht]
  rfl

/-- Resolve predicate on a memory alert with a stored threshold. -/
theorem should_resolve_memory {a : Alert} {th : ℚ} (sm : SystemMetrics) (k8s : K8sClusterInfo)
    (hs : a.metadata.source = "memory") (ht : a.metadata.threshold = some th) :
    should_resolve a sm k8s = decide (memory_percent sm < th - 5) := by
  unfold should_resolve
  rw [hs, ht]
  rfl

/-- Resolve predicate on a disk alert with a stored threshold. -/
theorem should_resolve_disk {a : Alert} {th : ℚ} (sm : SystemMetrics) (k8s : K8sClusterInfo)
    (hs : a.metadata.source = "disk") (ht : a.metadata.threshold = some th) :
    should_resolve a sm k8s = decide (sm.disk_usage_percent < th - 5) := by
  unfold should_resolve
  rw [hs, ht]
  rfl

/-- Resolve predicate on a load alert with a stored threshold. -/
theorem should_resolve_load {a : Alert} {th : ℚ} (sm : SystemMetrics) (k8s : K8sClusterInfo)
    (hs : a.metadata.source = "load") (ht : a.metadata.threshold = some th) :
    should_resolve a sm k8s = decide (sm.load_avg < th - 2) := by
  unfold should_resolve
  rw [hs, ht]
  rfl

/-- A metric alert with no stored threshold never satisfies the predicate. -/
theorem should_resolve_metric_none {a : Alert} (sm : SystemMetrics) (k8s : K8sClusterInfo)
    (hs : a.metadata.source ∈ (["cpu", "memory", "disk", "load"] : List String))
    (ht : a.metadata.threshold = none) :
    should_resolve a sm k8s = false := by
  unfold should_resolve
  simp only [List.mem_cons, List.mem_singleton, List.not_mem_nil, or_false] at hs
  rcases hs with h | h | h | h <;> rw [h, ht] <;> rfl

/-- An unrecognized source tag never satisfies the predicate. -/
theorem should_resolve_unknown {a : Alert} (sm : SystemMetrics) (k8s : K8sClusterInfo)
    (hs : a.metadata.source ∉
      (["cpu", "memory", "disk", "load", "k8s-nodes", "k8s-cluster"] : List String)) :
    should_resolve a sm k8s = false := by
  unfold should_resolve
  split
  · exact absurd (by simp_all) hs
  · exact absurd (by simp_all) hs
  · exact absurd (by simp_all) hs
  · exact absurd (by simp_all) hs
  · exact absurd (by simp_all) hs
  · exact absurd (by simp_all) hs
  · rfl

/-- C1 counterexample: an active kubernetes node alert has no threshold
metadata, yet the auto-resolution pass of a cycle with a healthy cluster
snapshot removes it from the active set and resolves it into history — so an
alert whose threshold metadata is None can auto-resolve, against the claim. -/
theorem c1_threshold_none_counterexample :
    alert_k8s_nodes.metadata.threshold = none
    ∧ mgr_c1.active_alerts = [(alert_k8s_nodes.id, alert_k8s_nodes)]
    ∧ (mgr_c1.auto_resolve_alerts 5 sm_benign k8s_healthy kv_zero).active_alerts = []
    ∧ (mgr_c1.auto_resolve_alerts 5 sm_benign k8s_healthy kv_zero).history
        = [alert_k8s_nodes.resolve 5]
    ∧ (alert_k8s_nodes.resolve 5).status = .Resolved := by
  refine ⟨rfl, rfl, ?_, ?_, rfl⟩
  · have h := auto_resolve_spec mgr_c1 5 sm_benign k8s_healthy kv_zero (by simp [mgr_c1])
    rw [h.1]
    simp [mgr_c1, should_resolve, alert_k8s_nodes, Alert.new, k8s_healthy]
  · have h := auto_resolve_spec mgr_c1 5 sm_benign k8s_healthy kv_zero (by simp [mgr_c1])
    rw [h.2]
    simp [mgr_c1, AlertManager.new, should_resolve, alert_k8s_nodes, Alert.new, k8s_healthy]

/-- C1 amended: the auto-resolution pass leaves an active alert in the active
set when its threshold metadata is None and its source is one of the four
metric tags cpu, memory, disk, load (the kubernetes tags resolve without a
threshold, which is what forces the amendment), and likewise when its source
is not one of the six recognized tags. -/
theorem c1_no_auto_resolve_amended (m : AlertManager) (now : Int) (sm : SystemMetrics)
    (k8s : K8sClusterInfo) (kv : KubeVirtInfo) (id : String) (a : Alert)
    (hnd : (m.active_alerts.map Prod.fst).Nodup)
    (hmem : (id, a) ∈ m.active_alerts)
    (hcase :
      (a.metadata.threshold = none
        ∧ a.metadata.source ∈ (["cpu", "memory", "disk", "load"] : List String))
      ∨ a.metadata.source ∉
          (["cpu", "memory", "disk", "load", "k8s-nodes", "k8s-cluster"] : List String)) :
    (id, a) ∈ (m.auto_resolve_alerts now sm k8s kv).active_alerts := by
  have hs : should_resolve a sm k8s = false := by
    rcases hcase with ⟨ht, hsrc⟩ | hsrc
    · exact should_resolve_metric_none sm k8s hsrc ht
    · exact should_resolve_unknown sm k8s hsrc
  rw [(auto_resolve_spec m now sm k8s kv hnd).1]
  exact List.mem_filter.mpr ⟨hmem, by simp [hs]⟩

/-- C1 amended witness: the active load alert with no threshold metadata of
the concrete one-alert manager survives the pass. -/
theorem c1_no_auto_resolve_amended_witness :
    (alert_c9.id, alert_c9) ∈
      (mgr_c9.auto_resolve_alerts 1 sm_benign k8s_healthy kv_zero).active_alerts :=
  c1_no_auto_resolve_amended mgr_c9 1 sm_benign k8s_healthy kv_zero alert_c9.id alert_c9
    (by simp [mgr_c9])
    (by simp [mgr_c9])
    (Or.inl ⟨rfl, by simp [alert_c9, Alert.new]⟩)

/-- C4: hysteresis of auto-resolution. The active cpu alert with stored
threshold 80 survives the pass at cpu usage 76 with nothing pushed to
history, and at cpu usage 74 it is removed from the active set and appended
to history with status Resolved and resolve timestamp set; in general, for an
active alert with a stored threshold, membership in the active set after the
pass is the negation of the per-source hysteresis condition: below threshold
minus 5 for cpu, memory (on the guarded percentage) and disk, and below
threshold minus 2 for load. -/
theorem c4_hysteresis :
    ((alert_cpu80.id, alert_cpu80) ∈
        (mgr_c4.auto_resolve_alerts 50 sm_cpu76 k8s_healthy kv_zero).active_alerts)
    ∧ (mgr_c4.auto_resolve_alerts 50 sm_cpu76 k8s_healthy kv_zero).history = []
    ∧ (mgr_c4.auto_resolve_alerts 50 sm_cpu74 k8s_healthy kv_zero).active_alerts = []
    ∧ (mgr_c4.auto_resolve_alerts 50 sm_cpu74 k8s_healthy kv_zero).history
        = [alert_cpu80.resolve 50]
    ∧ (alert_cpu80.resolve 50).status = .Resolved
    ∧ (alert_cpu80.resolve 50).resolved_at = some 50
    ∧ (∀ (m : AlertManager) (now : Int) (sm : SystemMetrics) (k8s : K8sClusterInfo)
        (kv : KubeVirtInfo) (id : String) (a : Alert) (th : ℚ),
        (m.active_alerts.map Prod.fst).Nodup →
        (id, a) ∈ m.active_alerts →
        a.metadata.threshold = some th →
        ((a.metadata.source = "cpu" →
            ((id, a) ∈ (m.auto_resolve_alerts now sm k8s kv).active_alerts
              ↔ ¬ sm.cpu_usage < th - 5))
        ∧ (a.metadata.source = "memory" →
            ((id, a) ∈ (m.auto_resolve_alerts now sm k8s kv).active_alerts
              ↔ ¬ memory_percent sm < th - 5))
        ∧ (a.metadata.source = "disk" →
            ((id, a) ∈ (m.auto_resolve_alerts now sm k8s kv).active_alerts
              ↔ ¬ sm.disk_usage_percent < th - 5))
        ∧ (a.metadata.source = "load" →
            ((id, a) ∈ (m.auto_resolve_alerts now sm k8s kv).active_alerts
              ↔ ¬ sm.load_avg < th - 2)))) := by
  have hnd : (mgr_c4.active_alerts.map Prod.fst).Nodup := by simp [mgr_c4]
  have h76 := auto_resolve_spec mgr_c4 50 sm_cpu76 k8s_healthy kv_zero hnd
  have h74 := auto_resolve_spec mgr_c4 50 sm_cpu74 k8s_healthy kv_zero hnd
  have hs76 : should_resolve alert_cpu80 sm_cpu76 k8s_healthy = false := by
    rw [should_resolve_cpu sm_cpu76 k8s_healthy rfl rfl]
    norm_num [sm_cpu76, sm_benign]
  have hs74 : should_resolve alert_cpu80 sm_cpu74 k8s_healthy = true := by
    rw [should_resolve_cpu sm_cpu74 k8s_healthy rfl rfl]
    norm_num [sm_cpu74, sm_benign]
  refine ⟨?_, ?_, ?_, ?_, rfl, rfl, ?_⟩
  · rw [h76.1]
    simp [mgr_c4, hs76]
  · rw [h76.2]
    simp [mgr_c4, AlertManager.new, hs76]
  · rw [h74.1]
    simp [mgr_c4, hs74]
  · rw [h74.2]
    simp [mgr_c4, AlertManager.new, hs74]
  · intro m now sm k8s kv id a th hnd hmem ht
    have hmm : ∀ (b : Bool), should_resolve a sm k8s = b →
        ((id, a) ∈ (m.auto_resolve_alerts now sm k8s kv).active_alerts ↔ b = false) := by
      intro b hb
      rw [(auto_resolve_spec m now sm k8s kv hnd).1]
      constructor
      · intro hin
        have := (List.mem_filter.mp hin).2
        rw [hb] at this
        simpa using this
      · intro hbf
        exact List.mem_filter.mpr ⟨hmem, by simp [hb, hbf]⟩
    refine ⟨?_, ?_, ?_, ?_⟩
    · intro hsrc
      rw [hmm _ (should_resolve_cpu sm k8s hsrc ht)]
      simp
    · intro hsrc
      rw [hmm _ (should_resolve_memory sm k8s hsrc ht)]
      simp
    · intro hsrc
      rw [hmm _ (should_resolve_disk sm k8s hsrc ht)]
      simp
    · intro hsrc
      rw [hmm _ (should_resolve_load sm k8s hsrc ht)]
      simp

/-- C4 witness: the general hysteresis statement instantiated on the concrete
one-alert manager at cpu usage 76 and stored threshold 80. -/
theorem c4_hysteresis_witness :
    (alert_cpu80.id, alert_cpu80) ∈
        (mgr_c4.auto_resolve_alerts 50 sm_cpu76 k8s_healthy kv_zero).active_alerts
      ↔ ¬ sm_cpu76.cpu_usage < (80 : ℚ) - 5 :=
  (c4_hysteresis.2.2.2.2.2.2 mgr_c4 50 sm_cpu76 k8s_healthy kv_zero
    alert_cpu80.id alert_cpu80 80 (by simp [mgr_c4]) (by simp [mgr_c4]) rfl).1 rfl

/-- C7: history retention. After the pass the history holds at most the
configured cap, holds no entry triggered at or before the seven-day cutoff,
is a sublist of the prior history, and when over the cap it is the age-filter
of the prior history with the oldest overflow dropped from the front; the
concrete 1001-entry history of recent terminal alerts is reduced to exactly
its last 1000 entries, dropping the oldest entry, which sat at the front. -/
theorem c7_history_retention :
    (∀ (m : AlertManager) (now : Int),
      (m.cleanup_history now).history.length ≤ m.max_history_size)
    ∧ (∀ (m : AlertManager) (now : Int) (a : Alert),
        a ∈ (m.cleanup_history now).history → a.triggered_at > now - 7 * 86400)
    ∧ (∀ (m : AlertManager) (now : Int),
        List.Sublist (m.cleanup_history now).history m.history)
    ∧ (∀ (m : AlertManager) (now : Int), m.history.length > m.max_history_size →
        (m.cleanup_history now).history
          = (m.history.drop (m.history.length - m.max_history_size)).filter
              (fun a => decide (a.triggered_at > now - 7 * 86400)))
    ∧ (mgr_c7.cleanup_history 1000).history = ((List.range 1001).map c7_entry).drop 1
    ∧ (mgr_c7.cleanup_history 1000).history.length = 1000
    ∧ ((List.range 1001).map c7_entry).head? = some (c7_entry 0) := by
  have hdrop : ∀ (m : AlertManager) (now : Int),
      (m.cleanup_history now).history
        = (if m.history.length > m.max_history_size then
            m.history.drop (m.history.length - m.max_history_size)
          else m.history).filter (fun a => decide (a.triggered_at > now - 7 * 86400)) := by
    intro m now
    rfl
  have hc7 : (mgr_c7.cleanup_history 1000).history
      = ((List.range 1001).map c7_entry).drop 1 := by
    rw [hdrop]
    have hlen : (((List.range 1001).map c7_entry)).length = 1001 := by simp
    have hgt : mgr_c7.history.length > mgr_c7.max_history_size := by
      simp [mgr_c7, AlertManager.new]
    rw [if_pos hgt]
    have : mgr_c7.history.length - mgr_c7.max_history_size = 1 := by
      simp [mgr_c7, AlertManager.new]
    rw [this]
    have hhist : mgr_c7.history = (List.range 1001).map c7_entry := by
      simp [mgr_c7]
    rw [hhist, List.filter_eq_self]
    intro a ha
    have ha2 : a ∈ (List.range 1001).map c7_entry := List.mem_of_mem_drop ha
    obtain ⟨i, _, rfl⟩ := List.mem_map.mp ha2
    simp only [c7_entry, Alert.new, decide_eq_true_eq, Int.ofNat_eq_natCast]
    omega
  refine ⟨?_, ?_, ?_, ?_, hc7, ?_, ?_⟩
  · intro m now
    rw [hdrop]
    by_cases h : m.history.length > m.max_history_size
    · rw [if_pos h]
      refine le_trans (List.length_filter_le _ _) ?_
      rw [List.length_drop]
      omega
    · rw [if_neg h]
      refine le_trans (List.length_filter_le _ _) ?_
      omega
  · intro m now a ha
    rw [hdrop] at ha
    have := (List.mem_filter.mp ha).2
    simpa using this
  · intro m now
    rw [hdrop]
    by_cases h : m.history.length > m.max_history_size
    · rw [if_pos h]
      exact (List.filter_sublist _).trans (List.drop_sublist _ _)
    · rw [if_neg h]
      exact List.filter_sublist _
  · intro m now h
    rw [hdrop, if_pos h]
  · rw [hc7]
    simp
  · rw [List.range_succ_eq_map]
    simp

/-- C7 witness: the over-cap characterization instantiated on the concrete
1001-entry history at clock 1000. -/
theorem c7_history_retention_witness :
    (mgr_c7.cleanup_history 1000).history
      = (mgr_c7.history.drop (mgr_c7.history.length - mgr_c7.max_history_size)).filter
          (fun a => decide (a.triggered_at > 1000 - 7 * 86400)) :=
  c7_history_retention.2.2.2.1 mgr_c7 1000 (by simp [mgr_c7, AlertManager.new])

/-- C8: get-active-alerts returns a permutation of the active set that is
sorted under the comparator ordering by level descending with ties broken by
trigger timestamp descending; on the concrete manager holding one Critical,
one Warning and one Info alert in scrambled map order it returns exactly
Critical, Warning, Info. -/
theorem c8_sort_order :
    (∀ m : AlertManager,
      List.Perm m.get_active_alerts (m.active_alerts.map (fun p => p.2)))
    ∧ (∀ m : AlertManager, List.Sorted alert_order m.get_active_alerts)
    ∧ mgr_c8.get_active_alerts = [alert_crit, alert_warn, alert_info] := by
  refine ⟨?_, ?_, by decide⟩
  · intro m
    exact List.perm_insertionSort alert_order _
  · intro m
    exact List.sorted_insertionSort alert_order _

/-- C9: acknowledging an Active alert stores the Acknowledged copy with the
acknowledge timestamp set and touches nothing else; acknowledging an alert in
any other status, or an unknown identifier, is the identity on the manager;
dismissing a present alert removes it, marks it Dismissed preserving both the
acknowledge and resolve timestamps, and appends it to history; dismissing an
unknown identifier is the identity. -/
theorem c9_ack_dismiss :
    (∀ (m : AlertManager) (now : Int) (id : String) (a : Alert),
      AList.get m.active_alerts id = some a → a.status = .Active →
      (m.acknowledge_alert now id).active_alerts
          = AList.insert m.active_alerts id
              { a with status := .Acknowledged, acknowledged_at := some now }
        ∧ (m.acknowledge_alert now id).history = m.history)
    ∧ (∀ (m : AlertManager) (now : Int) (id : String) (a : Alert),
        AList.get m.active_alerts id = some a → a.status ≠ .Active →
        m.acknowledge_alert now id = m)
    ∧ (∀ (m : AlertManager) (now : Int) (id : String),
        AList.get m.active_alerts id = none → m.acknowledge_alert now id = m)
    ∧ (∀ (m : AlertManager) (id : String) (a : Alert),
        AList.get m.active_alerts id = some a →
        (m.dismiss_alert id).active_alerts = AList.erase m.active_alerts id
          ∧ (m.dismiss_alert id).history = m.history ++ [a.dismiss]
          ∧ a.dismiss.status = .Dismissed
          ∧ a.dismiss.acknowledged_at = a.acknowledged_at
          ∧ a.dismiss.resolved_at = a.resolved_at)
    ∧ (∀ (m : AlertManager) (id : String),
        AList.get m.active_alerts id = none → m.dismiss_alert id = m) := by
  refine ⟨?_, ?_, ?_, ?_, ?_⟩
  · intro m now id a hget hact
    unfold AlertManager.acknowledge_alert
    rw [hget]
    constructor
    · simp [Alert.acknowledge, hact]
    · rfl
  · intro m now id a hget hact
    unfold AlertManager.acknowledge_alert
    rw [hget]
    have hid : a.acknowledge now = a := by
      simp [Alert.acknowledge, hact]
    dsimp only
    rw [hid, AList.insert_of_get_eq hget]
  · intro m now id hget
    unfold AlertManager.acknowledge_alert
    rw [hget]
  · intro m id a hget
    unfold AlertManager.dismiss_alert
    rw [hget]
    exact ⟨rfl, rfl, rfl, rfl, rfl⟩
  · intro m id hget
    unfold AlertManager.dismiss_alert
    rw [hget]

/-- C9 witness: the acknowledge transition instantiated on the concrete
manager holding one Active alert. -/
theorem c9_ack_dismiss_witness :
    (mgr_c9.acknowledge_alert 8 alert_c9.id).active_alerts
        = AList.insert mgr_c9.active_alerts alert_c9.id
            { alert_c9 with status := .Acknowledged, acknowledged_at := some 8 }
      ∧ (mgr_c9.acknowledge_alert 8 alert_c9.id).history = mgr_c9.history :=
  c9_ack_dismiss.1 mgr_c9 8 alert_c9.id alert_c9 (by simp [mgr_c9, AList.get]) rfl

/-- C2 counterexample: at nodes_ready = 2, nodes_total = 3 the enabled
kubernetes evaluator emits one node alert of level Critical, not the Warning
the claim asserts: one unhealthy node is not below 3 / 2 = 1 under integer
division. -/
theorem c2_two_of_three_counterexample :
    KubernetesRule.evaluate
        { cluster_info := { nodes_ready := 2, nodes_total := 3, pods_running := 5, services := 0 },
          enabled := true } 0 0
      = some [c2_alert_23]
    ∧ c2_alert_23.level = .Critical
    ∧ c2_alert_23.level ≠ .Warning := by
  refine ⟨by decide, rfl, by decide⟩

/-- C2 amended: a snapshot with positive node total, no more ready nodes than
total, and a positive unhealthy count makes the enabled kubernetes evaluator
emit exactly one k8s-nodes alert, Critical when the unhealthy count reaches
half the total under integer division and Warning otherwise; concretely,
ready 2 of 3 yields one Critical (1 is not below 3 / 2 = 1), ready 0 of 4
yields one Critical, and an empty cluster with no running pods yields exactly
one Critical Cluster Unreachable alert with source k8s-cluster. -/
theorem c2_k8s_levels :
    (∀ (info : K8sClusterInfo) (now : Int) (nonce : Nat),
      info.nodes_total > 0 → info.nodes_ready ≤ info.nodes_total →
      info.nodes_total - info.nodes_ready > 0 →
      ∃ l a,
        KubernetesRule.evaluate { cluster_info := info, enabled := true } now nonce = some l
        ∧ with_source l "k8s-nodes" = [a]
        ∧ a.level = (if info.nodes_total - info.nodes_ready ≥ info.nodes_total / 2
            then AlertLevel.Critical else AlertLevel.Warning))
    ∧ (KubernetesRule.evaluate
          { cluster_info := { nodes_ready := 2, nodes_total := 3, pods_running := 5, services := 0 },
            enabled := true } 0 0
        = some [c2_alert_23] ∧ c2_alert_23.level = .Critical)
    ∧ (∃ l, KubernetesRule.evaluate
          { cluster_info := { nodes_ready := 0, nodes_total := 4, pods_running := 2, services := 0 },
            enabled := true } 0 0 = some l
        ∧ l.length = 1 ∧ ∀ a ∈ l, a.level = .Critical ∧ a.metadata.source = "k8s-nodes")
    ∧ (∃ l, KubernetesRule.evaluate
          { cluster_info := { nodes_ready := 0, nodes_total := 0, pods_running := 0, services := 0 },
            enabled := true } 0 0 = some l
        ∧ l.length = 1 ∧ ∀ a ∈ l,
            a.level = .Critical ∧ a.metadata.source = "k8s-cluster"
              ∧ a.title = "Cluster Unreachable") := by
  refine ⟨?_,
    ⟨by decide, rfl⟩,
    ⟨[Alert.new .Critical .Kubernetes "4 Nodes Not Ready"
        "4 of 4 cluster nodes are not in Ready state" "k8s-nodes" 0 0],
      by decide, by decide, by decide⟩,
    ⟨[Alert.new .Critical .Kubernetes "Cluster Unreachable"
        "Unable to connect to Kubernetes cluster or cluster has no nodes" "k8s-cluster" 0 1],
      by decide, by decide, by decide⟩⟩
  intro info now nonce htot hle hun
  have heval : KubernetesRule.evaluate { cluster_info := info, enabled := true } now nonce
      = some [Alert.new
          (if info.nodes_total - info.nodes_ready ≥ info.nodes_total / 2
            then AlertLevel.Critical else AlertLevel.Warning)
          .Kubernetes
          (toString (info.nodes_total - info.nodes_ready) ++ " Nodes Not Ready")
          (toString (info.nodes_total - info.nodes_ready) ++ " of "
            ++ toString info.nodes_total ++ " cluster nodes are not in Ready state")
          "k8s-nodes" now nonce] := by
    simp [KubernetesRule.evaluate, checked_sub_u32, htot, hle, hun, htot.ne']
  exact ⟨_,
    Alert.new
      (if info.nodes_total - info.nodes_ready ≥ info.nodes_total / 2
        then AlertLevel.Critical else AlertLevel.Warning)
      .Kubernetes
      (toString (info.nodes_total - info.nodes_ready) ++ " Nodes Not Ready")
      (toString (info.nodes_total - info.nodes_ready) ++ " of "
        ++ toString info.nodes_total ++ " cluster nodes are not in Ready state")
      "k8s-nodes" now nonce,
    heval, by simp [with_source, Alert.new], rfl⟩

/-- C2 amended witness: the general statement instantiated at ready 2 of 3. -/
theorem c2_k8s_levels_witness :
    ∃ l a,
      KubernetesRule.evaluate
          { cluster_info := { nodes_ready := 2, nodes_total := 3, pods_running := 5, services := 0 },
            enabled := true } 7 1 = some l
      ∧ with_source l "k8s-nodes" = [a]
      ∧ a.level = (if 3 - 2 ≥ 3 / 2 then AlertLevel.Critical else AlertLevel.Warning) :=
  c2_k8s_levels.1
    { nodes_ready := 2, nodes_total := 3, pods_running := 5, services := 0 }
    7 1 (by decide) (by decide) (by decide)

/-- C10: the kubernetes evaluator computes the unhealthy count by an
unguarded u32 subtraction, so with a positive node total and more ready nodes
than total it panics (modelled none) instead of returning a candidate list,
and under the precondition that ready does not exceed total it always returns
a candidate list. -/
theorem c10_unchecked_subtraction :
    (∀ (info : K8sClusterInfo) (now : Int) (nonce : Nat),
      info.nodes_total > 0 → info.nodes_ready > info.nodes_total →
      KubernetesRule.evaluate { cluster_info := info, enabled := true } now nonce = none)
    ∧ (∀ (info : K8sClusterInfo) (now : Int) (nonce : Nat),
        info.nodes_ready ≤ info.nodes_total →
        ∃ l, KubernetesRule.evaluate { cluster_info := info, enabled := true } now nonce
          = some l) := by
  constructor
  · intro info now nonce htot hgt
    have hnle : ¬ info.nodes_ready ≤ info.nodes_total := by omega
    simp [KubernetesRule.evaluate, checked_sub_u32, htot, hnle]
  · intro info now nonce hle
    rw [show (∃ l, KubernetesRule.evaluate { cluster_info := info, enabled := true } now nonce
        = some l)
      = (KubernetesRule.evaluate { cluster_info := info, enabled := true } now nonce).isSome from
        propext Option.isSome_iff_exists.symm]
    unfold KubernetesRule.evaluate
    simp only [checked_sub_u32, hle, if_true, Bool.not_true, Bool.false_eq_true, if_false]
    split_ifs
    all_goals try simp_all
    all_goals split_ifs <;> simp_all

/-- C10 witness: a snapshot with five ready nodes reported against a total of
three makes the enabled evaluator panic, and one with two of three ready
returns a list. -/
theorem c10_unchecked_subtraction_witness :
    KubernetesRule.evaluate
        { cluster_info := { nodes_ready := 5, nodes_total := 3, pods_running := 0, services := 0 },
          enabled := true } 0 0 = none :=
  c10_unchecked_subtraction.1
    { nodes_ready := 5, nodes_total := 3, pods_running := 0, services := 0 }
    0 0 (by decide) (by decide)

/-- Filtering by source over a list whose alerts all share one source tag
keeps everything or nothing. -/
theorem with_source_of_all {l : List Alert} {t : String} (s : String)
    (h : ∀ a ∈ l, a.metadata.source = t) :
    with_source l s = if t = s then l else [] := by
  split_ifs with he
  · subst he
    rw [with_source, List.filter_eq_self]
    intro a ha
    simp [h a ha]
  · rw [with_source, List.filter_eq_nil_iff]
    intro a ha
    simp [h a ha, he]

/-- Every cpu-block alert carries source cpu. -/
theorem cpu_alerts_source (r : SystemMetricsRule) (now : Int) (nonce : Nat) :
    ∀ a ∈ r.cpu_alerts now nonce, a.metadata.source = "cpu" := by
  unfold SystemMetricsRule.cpu_alerts
  split_ifs <;> simp [Alert.new, Alert.with_value]

/-- Every memory-block alert carries source memory. -/
theorem memory_alerts_source (r : SystemMetricsRule) (now : Int) (nonce : Nat) :
    ∀ a ∈ r.memory_alerts now nonce, a.metadata.source = "memory" := by
  unfold SystemMetricsRule.memory_alerts
  split_ifs <;> simp [Alert.new, Alert.with_value]

/-- Every disk-block alert carries source disk. -/
theorem disk_alerts_source (r : SystemMetricsRule) (now : Int) (nonce : Nat) :
    ∀ a ∈ r.disk_alerts now nonce, a.metadata.source = "disk" := by
  unfold SystemMetricsRule.disk_alerts
  split_ifs <;> simp [Alert.new, Alert.with_value]

/-- Every load-block alert carries source load. -/
theorem load_alerts_source (r : SystemMetricsRule) (now : Int) (nonce : Nat) :
    ∀ a ∈ r.load_alerts now nonce, a.metadata.source = "load" := by
  unfold SystemMetricsRule.load_alerts
  split_ifs <;> simp [Alert.new, Alert.with_value]

/-- Filtering the full system evaluation by one of the four dimension tags
projects onto that dimension block. -/
theorem with_source_system_evaluate (r : SystemMetricsRule) (now : Int) (nonce : Nat) :
    with_source (r.evaluate now nonce) "cpu" = with_source (r.cpu_alerts now nonce) "cpu"
    ∧ with_source (r.evaluate now nonce) "memory"
        = with_source (r.memory_alerts now (nonce + 1)) "memory"
    ∧ with_source (r.evaluate now nonce) "disk"
        = with_source (r.disk_alerts now (nonce + 2)) "disk"
    ∧ with_source (r.evaluate now nonce) "load"
        = with_source (r.load_alerts now (nonce + 3)) "load" := by
  have happ : ∀ (s : String), with_source (r.evaluate now nonce) s
      = with_source (r.cpu_alerts now nonce) s
        ++ with_source (r.memory_alerts now (nonce + 1)) s
        ++ with_source (r.disk_alerts now (nonce + 2)) s
        ++ with_source (r.load_alerts now (nonce + 3)) s := by
    intro s
    unfold SystemMetricsRule.evaluate with_source
    simp [List.filter_append]
  refine ⟨?_, ?_, ?_, ?_⟩
  · rw [happ,
      with_source_of_all "cpu" (memory_alerts_source r now (nonce + 1)),
      with_source_of_all "cpu" (disk_alerts_source r now (nonce + 2)),
      with_source_of_all "cpu" (load_alerts_source r now (nonce + 3))]
    simp
  · rw [happ,
      with_source_of_all "memory" (cpu_alerts_source r now nonce),
      with_source_of_all "memory" (disk_alerts_source r now (nonce + 2)),
      with_source_of_all "memory" (load_alerts_source r now (nonce + 3))]
    simp
  · rw [happ,
      with_source_of_all "disk" (cpu_alerts_source r now nonce),
      with_source_of_all "disk" (memory_alerts_source r now (nonce + 1)),
      with_source_of_all "disk" (load_alerts_source r now (nonce + 3))]
    simp
  · rw [happ,
      with_source_of_all "load" (cpu_alerts_source r now nonce),
      with_source_of_all "load" (memory_alerts_source r now (nonce + 1)),
      with_source_of_all "load" (disk_alerts_source r now (nonce + 2))]
    simp

/-- A block filtered by its own tag is the block itself. -/
theorem with_source_self {l : List Alert} {t : String}
    (h : ∀ a ∈ l, a.metadata.source = t) : with_source l t = l := by
  rw [with_source_of_all t h, if_pos rfl]

/-- C5: per-dimension emission of the system metrics evaluator. For each
enabled dimension of cpu, memory, disk, load, one evaluation emits exactly
one Critical alert with that source when the observed value (the guarded
percentage for memory) meets or exceeds the critical threshold, exactly one
Warning alert when it is below critical but meets or exceeds the warning
threshold, and no alert with that source when it is below both; the default
configuration instantiates this to the claimed 95/80 cpu bands. -/
theorem c5_system_metric_emission :
    ∀ (r : SystemMetricsRule) (now : Int) (nonce : Nat),
      (r.config.cpu_enabled = true →
        (r.config.cpu_critical_threshold ≤ r.metrics.cpu_usage →
          ∃ a, with_source (r.evaluate now nonce) "cpu" = [a]
            ∧ a.level = .Critical ∧ a.metadata.source = "cpu")
        ∧ (r.metrics.cpu_usage < r.config.cpu_critical_threshold →
            r.config.cpu_warning_threshold ≤ r.metrics.cpu_usage →
          ∃ a, with_source (r.evaluate now nonce) "cpu" = [a]
            ∧ a.level = .Warning ∧ a.metadata.source = "cpu")
        ∧ (r.metrics.cpu_usage < r.config.cpu_warning_threshold →
            r.metrics.cpu_usage < r.config.cpu_critical_threshold →
            with_source (r.evaluate now nonce) "cpu" = []))
      ∧ (r.config.memory_enabled = true →
        (r.config.memory_critical_threshold ≤ memory_percent r.metrics →
          ∃ a, with_source (r.evaluate now nonce) "memory" = [a]
            ∧ a.level = .Critical ∧ a.metadata.source = "memory")
        ∧ (memory_percent r.metrics < r.config.memory_critical_threshold →
            r.config.memory_warning_threshold ≤ memory_percent r.metrics →
          ∃ a, with_source (r.evaluate now nonce) "memory" = [a]
            ∧ a.level = .Warning ∧ a.metadata.source = "memory")
        ∧ (memory_percent r.metrics < r.config.memory_warning_threshold →
            memory_percent r.metrics < r.config.memory_critical_threshold →
            with_source (r.evaluate now nonce) "memory" = []))
      ∧ (r.config.disk_enabled = true →
        (r.config.disk_critical_threshold ≤ r.metrics.disk_usage_percent →
          ∃ a, with_source (r.evaluate now nonce) "disk" = [a]
            ∧ a.level = .Critical ∧ a.metadata.source = "disk")
        ∧ (r.metrics.disk_usage_percent < r.config.disk_critical_threshold →
            r.config.disk_warning_threshold ≤ r.metrics.disk_usage_percent →
          ∃ a, with_source (r.evaluate now nonce) "disk" = [a]
            ∧ a.level = .Warning ∧ a.metadata.source = "disk")
        ∧ (r.metrics.disk_usage_percent < r.config.disk_warning_threshold →
            r.metrics.disk_usage_percent < r.config.disk_critical_threshold →
            with_source (r.evaluate now nonce) "disk" = []))
      ∧ (r.config.load_enabled = true →
        (r.config.load_critical_threshold ≤ r.metrics.load_avg →
          ∃ a, with_source (r.evaluate now nonce) "load" = [a]
            ∧ a.level = .Critical ∧ a.metadata.source = "load")
        ∧ (r.metrics.load_avg < r.config.load_critical_threshold →
            r.config.load_warning_threshold ≤ r.metrics.load_avg →
          ∃ a, with_source (r.evaluate now nonce) "load" = [a]
            ∧ a.level = .Warning ∧ a.metadata.source = "load")
        ∧ (r.metrics.load_avg < r.config.load_warning_threshold →
            r.metrics.load_avg < r.config.load_critical_threshold →
            with_source (r.evaluate now nonce) "load" = [])) := by
  intro r now nonce
  obtain ⟨hcpu, hmem, hdisk, hload⟩ := with_source_system_evaluate r now nonce
  rw [with_source_self (cpu_alerts_source r now nonce)] at hcpu
  rw [with_source_self (memory_alerts_source r now (nonce + 1))] at hmem
  rw [with_source_self (disk_alerts_source r now (nonce + 2))] at hdisk
  rw [with_source_self (load_alerts_source r now (nonce + 3))] at hload
  refine ⟨?_, ?_, ?_, ?_⟩
  · intro hen
    refine ⟨?_, ?_, ?_⟩
    · intro hc
      rw [hcpu]
      unfold SystemMetricsRule.cpu_alerts
      rw [if_pos hen, if_pos hc]
      exact ⟨_, rfl, rfl, rfl⟩
    · intro hnc hw
      rw [hcpu]
      unfold SystemMetricsRule.cpu_alerts
      rw [if_pos hen, if_neg (not_le.mpr hnc), if_pos hw]
      exact ⟨_, rfl, rfl, rfl⟩
    · intro hnw hnc
      rw [hcpu]
      unfold SystemMetricsRule.cpu_alerts
      rw [if_pos hen, if_neg (not_le.mpr hnc), if_neg (not_le.mpr hnw)]
  · intro hen
    refine ⟨?_, ?_, ?_⟩
    · intro hc
      rw [hmem]
      unfold SystemMetricsRule.memory_alerts
      rw [if_pos hen, if_pos hc]
      exact ⟨_, rfl, rfl, rfl⟩
    · intro hnc hw
      rw [hmem]
      unfold SystemMetricsRule.memory_alerts
      rw [if_pos hen, if_neg (not_le.mpr hnc), if_pos hw]
      exact ⟨_, rfl, rfl, rfl⟩
    · intro hnw hnc
      rw [hmem]
      unfold SystemMetricsRule.memory_alerts
      rw [if_pos hen, if_neg (not_le.mpr hnc), if_neg (not_le.mpr hnw)]
  · intro hen
    refine ⟨?_, ?_, ?_⟩
    · intro hc
      rw [hdisk]
      unfold SystemMetricsRule.disk_alerts
      rw [if_pos hen, if_pos hc]
      exact ⟨_, rfl, rfl, rfl⟩
    · intro hnc hw
      rw [hdisk]
      unfold SystemMetricsRule.disk_alerts
      rw [if_pos hen, if_neg (not_le.mpr hnc), if_pos hw]
      exact ⟨_, rfl, rfl, rfl⟩
    · intro hnw hnc
      rw [hdisk]
      unfold SystemMetricsRule.disk_alerts
      rw [if_pos hen, if_neg (not_le.mpr hnc), if_neg (not_le.mpr hnw)]
  · intro hen
    refine ⟨?_, ?_, ?_⟩
    · intro hc
      rw [hload]
      unfold SystemMetricsRule.load_alerts
      rw [if_pos hen, if_pos hc]
      exact ⟨_, rfl, rfl, rfl⟩
    · intro hnc hw
      rw [hload]
      unfold SystemMetricsRule.load_alerts
      rw [if_pos hen, if_neg (not_le.mpr hnc), if_pos hw]
      exact ⟨_, rfl, rfl, rfl⟩
    · intro hnw hnc
      rw [hload]
      unfold SystemMetricsRule.load_alerts
      rw [if_pos hen, if_neg (not_le.mpr hnc), if_neg (not_le.mpr hnw)]

/-- C5 witness: with the default configuration and cpu usage 90, one
evaluation emits exactly one Warning cpu alert. -/
theorem c5_system_metric_emission_witness :
    ∃ a, with_source
        (SystemMetricsRule.evaluate { metrics := sm_high_cpu, config := SystemAlert.default } 0 0)
        "cpu" = [a]
      ∧ a.level = .Warning ∧ a.metadata.source = "cpu" :=
  ((c5_system_metric_emission { metrics := sm_high_cpu, config := SystemAlert.default } 0 0).1
    rfl).2.1
    (by norm_num [sm_high_cpu, sm_benign, SystemAlert.default])
    (by norm_num [sm_high_cpu, sm_benign, SystemAlert.default])

/-- C6: the guarded memory percentage. It equals used over total times 100
when the total is positive and 0 otherwise; consequently the evaluator with a
zero-total snapshot emits no memory alert under the default thresholds, and
the auto-resolution pass applied to a zero-total snapshot compares a memory
alert against a reading of 0 rather than failing. The total functions of the
rational model can produce neither a division exception nor a NaN. -/
theorem c6_memory_percent_guard :
    (∀ sm : SystemMetrics, 0 < sm.memory_total_gb →
      memory_percent sm = sm.memory_used_gb / sm.memory_total_gb * 100)
    ∧ (∀ sm : SystemMetrics, ¬ 0 < sm.memory_total_gb → memory_percent sm = 0)
    ∧ (∀ (now : Int) (nonce : Nat),
        with_source (SystemMetricsRule.evaluate
          { metrics := sm_zero_mem, config := SystemAlert.default } now nonce) "memory" = [])
    ∧ (∀ (m : AlertManager) (now : Int) (k8s : K8sClusterInfo) (kv : KubeVirtInfo)
        (id : String) (a : Alert) (th : ℚ),
        (m.active_alerts.map Prod.fst).Nodup →
        (id, a) ∈ m.active_alerts →
        a.metadata.source = "memory" → a.metadata.threshold = some th →
        ((id, a) ∈ (m.auto_resolve_alerts now sm_zero_mem k8s kv).active_alerts
          ↔ ¬ (0 : ℚ) < th - 5)) := by
  have h0 : memory_percent sm_zero_mem = 0 := by
    norm_num [memory_percent, sm_zero_mem, sm_benign]
  refine ⟨?_, ?_, ?_, ?_⟩
  · intro sm hpos
    rw [memory_percent, if_pos hpos]
  · intro sm hneg
    rw [memory_percent, if_neg hneg]
  · intro now nonce
    obtain ⟨_, hmem, _, _⟩ := with_source_system_evaluate
      { metrics := sm_zero_mem, config := SystemAlert.default } now nonce
    rw [with_source_self (memory_alerts_source _ now (nonce + 1))] at hmem
    rw [hmem]
    unfold SystemMetricsRule.memory_alerts
    norm_num [h0, SystemAlert.default]
  · intro m now k8s kv id a th hnd hmem hsrc ht
    have hb : should_resolve a sm_zero_mem k8s = decide ((0 : ℚ) < th - 5) := by
      rw [should_resolve_memory sm_zero_mem k8s hsrc ht, h0]
    rw [(auto_resolve_spec m now sm_zero_mem k8s kv hnd).1]
    constructor
    · intro hin
      have h2 := (List.mem_filter.mp hin).2
      rw [hb] at h2
      simpa using h2
    · intro hf
      exact List.mem_filter.mpr ⟨hmem, by simp [hb, hf]⟩

/-- C6 witness: the positive-total branch instantiated on the benign snapshot
with one gigabyte total. -/
theorem c6_memory_percent_guard_witness :
    memory_percent sm_benign = sm_benign.memory_used_gb / sm_benign.memory_total_gb * 100 :=
  c6_memory_percent_guard.1 sm_benign (by norm_num [sm_benign])

/-- The dedup gate discards a candidate inside the window with no state
change at all. -/
theorem add_dedup_skip (m : AlertManager) (now last : Int) (a : Alert)
    (hget : AList.get m.last_triggered (a.category.as_str ++ "-" ++ a.metadata.source)
      = some last)
    (hlt : now - last < m.dedup_window_seconds) :
    m.add_alert_with_dedup now a = m := by
  unfold AlertManager.add_alert_with_dedup
  simp [hget, hlt]

/-- The dedup gate admits a candidate whose key is fresh or stale: it inserts
the alert under its identifier and stamps the key with the clock reading. -/
theorem add_dedup_accept (m : AlertManager) (now : Int) (a : Alert)
    (hns : ∀ last, AList.get m.last_triggered (a.category.as_str ++ "-" ++ a.metadata.source)
      = some last → m.dedup_window_seconds ≤ now - last) :
    m.add_alert_with_dedup now a
      = { m with
          active_alerts := AList.insert m.active_alerts a.id a
          last_triggered :=
            AList.insert m.last_triggered (a.category.as_str ++ "-" ++ a.metadata.source) now } := by
  unfold AlertManager.add_alert_with_dedup
  cases hget : AList.get m.last_triggered (a.category.as_str ++ "-" ++ a.metadata.source) with
  | none => simp [hget]
  | some last =>
    have hge := hns last hget
    simp [hget, not_lt.mpr hge]

/-- C3: the dedup gate. A candidate whose category-source key is stamped less
than the dedup window ago is discarded with the active set, history and dedup
map untouched; otherwise it is inserted into the active set under its own
identifier and the dedup entry is set to the clock reading; a candidate
admitted at time t suppresses every same-key candidate arriving within the
window after t; and concretely, two whole evaluation cycles 100 seconds apart
under persistently high cpu usage leave exactly one admitted cpu alert. -/
theorem c3_dedup :
    (∀ (m : AlertManager) (now last : Int) (a : Alert),
      AList.get m.last_triggered (a.category.as_str ++ "-" ++ a.metadata.source) = some last →
      now - last < m.dedup_window_seconds →
      m.add_alert_with_dedup now a = m)
    ∧ (∀ (m : AlertManager) (now : Int) (a : Alert),
        (∀ last, AList.get m.last_triggered (a.category.as_str ++ "-" ++ a.metadata.source)
          = some last → m.dedup_window_seconds ≤ now - last) →
        (m.add_alert_with_dedup now a).active_alerts = AList.insert m.active_alerts a.id a
          ∧ (m.add_alert_with_dedup now a).last_triggered
            = AList.insert m.last_triggered (a.category.as_str ++ "-" ++ a.metadata.source) now
          ∧ (m.add_alert_with_dedup now a).history = m.history)
    ∧ (∀ (m : AlertManager) (t tt : Int) (a aa : Alert),
        aa.category.as_str ++ "-" ++ aa.metadata.source
          = a.category.as_str ++ "-" ++ a.metadata.source →
        (∀ last, AList.get m.last_triggered (a.category.as_str ++ "-" ++ a.metadata.source)
          = some last → m.dedup_window_seconds ≤ t - last) →
        tt - t < m.dedup_window_seconds →
        (m.add_alert_with_dedup t a).add_alert_with_dedup tt aa = m.add_alert_with_dedup t a)
    ∧ (AlertManager.evaluate AlertManager.new 0 0 sm_high_cpu k8s_healthy kv_zero
        = some mgr_cycle1
      ∧ AlertManager.evaluate mgr_cycle1 100 10 sm_high_cpu k8s_healthy kv_zero
        = some mgr_cycle1
      ∧ mgr_cycle1.active_alerts.map (fun p => p.2.metadata.source) = ["cpu"]
      ∧ mgr_cycle1.active_alerts.length = 1) := by
  refine ⟨add_dedup_skip, ?_, ?_, ?_, ?_, by decide, by decide⟩
  · intro m now a hns
    rw [add_dedup_accept m now a hns]
    exact ⟨rfl, rfl, rfl⟩
  · intro m t tt a aa hkey hns hlt
    rw [add_dedup_accept m t a hns]
    apply add_dedup_skip
    · rw [hkey]
      exact AList.get_insert_self m.last_triggered _ t
    · exact hlt
  · norm_num [AlertManager.evaluate, AlertManager.new, SystemMetricsRule.evaluate,
      SystemMetricsRule.cpu_alerts, SystemMetricsRule.memory_alerts,
      SystemMetricsRule.disk_alerts, SystemMetricsRule.load_alerts, memory_percent,
      sm_high_cpu, sm_benign, SystemAlert.default, cpu_alert_cycle1,
      KubernetesRule.evaluate, KubeVirtRule.evaluate, k8s_healthy, kv_zero,
      checked_sub_u32, AlertManager.add_alert_with_dedup, AList.get, AList.insert,
      AlertManager.auto_resolve_alerts, should_resolve, resolve_step,
      AlertManager.cleanup_history, mgr_cycle1, Alert.new, Alert.with_value,
      AlertCategory.as_str]
    decide
  · have h1 : ("system" ++ "-" ++ "cpu" : String) = "system-cpu" := by decide
    have h2 : ("system" ++ "-" ++ toString (0 : Int) ++ "-" ++ toString (0 : Nat) : String)
        = "system-0-0" := by decide
    have h3 : ("system" ++ "-" ++ toString (100 : Int) ++ "-" ++ toString (10 : Nat) : String)
        = "system-100-10" := by decide
    norm_num [h1, h2, h3, AlertManager.evaluate, AlertManager.new, SystemMetricsRule.evaluate,
      SystemMetricsRule.cpu_alerts, SystemMetricsRule.memory_alerts,
      SystemMetricsRule.disk_alerts, SystemMetricsRule.load_alerts, memory_percent,
      sm_high_cpu, sm_benign, SystemAlert.default, cpu_alert_cycle1,
      KubernetesRule.evaluate, KubeVirtRule.evaluate, k8s_healthy, kv_zero,
      checked_sub_u32, AlertManager.add_alert_with_dedup, AList.get, AList.insert,
      AlertManager.auto_resolve_alerts, should_resolve, resolve_step,
      AlertManager.cleanup_history, mgr_cycle1, Alert.new, Alert.with_value,
      AlertCategory.as_str]

/-- C3 witness: the discard branch instantiated after the first concrete
cycle: a second cpu candidate 100 seconds later changes nothing. -/
theorem c3_dedup_witness :
    mgr_cycle1.add_alert_with_dedup 100
        ((Alert.new .Warning .System "High CPU Usage"
          ("CPU usage is high at " ++ toString (90 : ℚ) ++ "%") "cpu" 100 10).with_value 90 80)
      = mgr_cycle1 :=
  c3_dedup.1 mgr_cycle1 100 0
    ((Alert.new .Warning .System "High CPU Usage"
      ("CPU usage is high at " ++ toString (90 : ℚ) ++ "%") "cpu" 100 10).with_value 90 80)
    (by decide) (by decide)

end NixHypervisorTui
